import Mathlib

/-!
Shallow embedding of the task-tracker REST backend (`src/server.js`).

The store is the MySQL database: three tables (`tasks`, `tags`, `subtasks`)
modelled as lists of rows together with the auto-increment counters.  The
order of a table's list models the (unspecified) physical row order the
engine returns for a query without an `ORDER BY` clause; rows are appended
on `INSERT`, and an explicit `ORDER BY` in a query is modelled by sorting
the filtered rows.  Dates (`DATE` column, `CURDATE()`) are day indices as
`Nat`; timestamps are `Nat` instants passed in as `now` parameters.

JavaScript/SQL semantics captured explicitly:
  * `x || d` on strings: the empty string is falsy and falls back to `d`;
  * `completed || false` on an optional boolean;
  * `!title || title.trim() === the empty string` for the blank-title check;
  * SQL three-valued logic for `WHERE` predicates over a nullable `due_date`
    column (`NULL < x` is `NULL`, and a row is kept only when the predicate
    evaluates to `TRUE`).

Not modelled (no claim depends on them): `ENUM` value validation by the
engine, connection pooling, and failures of read-only statements.  For the
transactional `PUT` handler, an optional failure-injection index selects
which of the five write statements inside the transaction throws; the
`catch` branch of the handler performs `ROLLBACK`, which restores the store
as it was before the request.
-/

namespace TodoServer

/-- A row of the `tasks` table (schema at `server.js` lines 32-43). -/
structure TaskRow where
  id : Nat
  title : String
  description : Option String
  priority : String
  due_date : Option Nat
  completed : Bool
  created_at : Nat
  updated_at : Nat
  deriving Repr, DecidableEq

/-- A row of the `tags` table (schema at lines 46-54). -/
structure TagRow where
  id : Nat
  task_id : Nat
  tag_name : String
  deriving Repr, DecidableEq

/-- A row of the `subtasks` table (schema at lines 57-67). -/
structure SubtaskRow where
  id : Nat
  task_id : Nat
  text : String
  completed : Bool
  created_at : Nat
  deriving Repr, DecidableEq

/-- The database state: the three tables plus their auto-increment counters. -/
structure Store where
  tasks : List TaskRow
  tags : List TagRow
  subtasks : List SubtaskRow
  nextTaskId : Nat
  nextTagId : Nat
  nextSubtaskId : Nat
  deriving Repr, DecidableEq

/-- Projection of a subtask row selected by
`SELECT id, text, completed FROM subtasks`. -/
structure SubtaskView where
  id : Nat
  text : String
  completed : Bool
  deriving Repr, DecidableEq

/-- The enriched task shape returned to clients: every `tasks` column from
`SELECT *`, plus `tags` (array of names) and `subtasks` (array of views). -/
structure EnrichedTask where
  id : Nat
  title : String
  description : Option String
  priority : String
  due_date : Option Nat
  completed : Bool
  created_at : Nat
  updated_at : Nat
  tags : List String
  subtasks : List SubtaskView
  deriving Repr, DecidableEq

/-- JavaScript `x || null` for an optional string value: the empty string is
falsy and becomes `NULL` (used for `description || null`). -/
def jsStrOrNull : Option String → Option String
  | none => none
  | some s => if s = "" then none else some s

/-- JavaScript `x || d` for an optional string value: absent or empty falls
back to the default (used for `priority || medium`). -/
def jsStrOr (o : Option String) (d : String) : String :=
  match o with
  | none => d
  | some s => if s = "" then d else s

/-- JavaScript `x || false` for an optional boolean (used for
`completed || false`). -/
def jsBoolOrFalse : Option Bool → Bool
  | none => false
  | some b => b

/-- Whitespace for the purposes of JavaScript `String.prototype.trim`
(restricted to the ASCII whitespace characters that can occur here). -/
def isJsSpace (c : Char) : Bool :=
  c == ' ' || c == '\t' || c == '\n' || c == '\r'

/-- Strip leading and trailing whitespace from a character list. -/
def jsTrimList (l : List Char) : List Char :=
  ((l.dropWhile isJsSpace).reverse.dropWhile isJsSpace).reverse

/-- JavaScript `s.trim()`. -/
def jsTrim (s : String) : String :=
  String.mk (jsTrimList s.data)

/-- The blank-title check of the POST handler (line 155):
`!title || title.trim() === emptyString`.  An absent title is falsy, and the
empty string is falsy too, so both are caught; otherwise trim and compare. -/
def titleBlank : Option String → Bool
  | none => true
  | some t => jsTrim t == ""

/-- SQL `due_date < today` over the nullable `due_date` column: comparison
with `NULL` yields `NULL` (three-valued logic), modelled as `none`. -/
def sqlLtDate : Option Nat → Nat → Option Bool
  | none, _ => none
  | some d, today => some (decide (d < today))

/-- SQL three-valued `AND`. -/
def sqlAnd : Option Bool → Option Bool → Option Bool
  | some false, _ => some false
  | _, some false => some false
  | some true, some true => some true
  | _, _ => none

/-- A `WHERE` clause keeps a row only when its predicate evaluates to
`TRUE` (not `FALSE` and not `NULL`). -/
def sqlIsTrue : Option Bool → Bool
  | some true => true
  | _ => false

/-- `SELECT * FROM tasks WHERE id = ?` followed by taking `rows[0]`
(the primary key makes at most one row match; the handler checks
`rows.length === 0` and otherwise uses the first row). -/
def selectTaskById (s : Store) (id : Nat) : Option TaskRow :=
  (s.tasks.filter (fun t => t.id == id)).head?

/-- `SELECT tag_name FROM tags WHERE task_id = ?` followed by the
`tags.map(t => t.tag_name)` projection (no ORDER BY). -/
def selectTagNames (s : Store) (taskId : Nat) : List String :=
  (s.tags.filter (fun g => g.task_id == taskId)).map (fun g => g.tag_name)

/-- Projection of a subtask row to the selected columns. -/
def toSubtaskView (st : SubtaskRow) : SubtaskView :=
  { id := st.id, text := st.text, completed := st.completed }

/-- `SELECT id, text, completed FROM subtasks WHERE task_id = ?`
with no ORDER BY: rows come back in the engine's unspecified order,
modelled by the order of the table list. -/
def selectSubtaskViews (s : Store) (taskId : Nat) : List SubtaskView :=
  (s.subtasks.filter (fun st => st.task_id == taskId)).map toSubtaskView

/-- One step of the sort implementing `ORDER BY id` (ascending). -/
def insertByIdLe (x : SubtaskView) : List SubtaskView → List SubtaskView
  | [] => [x]
  | y :: ys => if x.id ≤ y.id then x :: y :: ys else y :: insertByIdLe x ys

/-- `ORDER BY id` on the selected subtask views (insertion sort). -/
def orderById (l : List SubtaskView) : List SubtaskView :=
  l.foldr insertByIdLe []

/-- One step of the sort implementing `ORDER BY created_at DESC`. -/
def insertByCreatedDesc (x : TaskRow) : List TaskRow → List TaskRow
  | [] => [x]
  | y :: ys => if y.created_at ≤ x.created_at then x :: y :: ys else y :: insertByCreatedDesc x ys

/-- `ORDER BY created_at DESC` on task rows (insertion sort). -/
def orderByCreatedDesc (l : List TaskRow) : List TaskRow :=
  l.foldr insertByCreatedDesc []

/-- Enrich a task row with its tags and subtasks exactly as the single-task
fetches do (lines 127-137, 191-201, 265-275): tag names by `task_id`, and
the subtask views with NO `ORDER BY`. -/
def enrichTask (s : Store) (t : TaskRow) : EnrichedTask :=
  { id := t.id, title := t.title, description := t.description,
    priority := t.priority, due_date := t.due_date, completed := t.completed,
    created_at := t.created_at, updated_at := t.updated_at,
    tags := selectTagNames s t.id,
    subtasks := selectSubtaskViews s t.id }

/-- Fetch a task row by id and enrich it: the query sequence shared by the
GET-by-id handler and the post-commit fetches of POST and PUT. -/
def fetchEnriched (s : Store) (id : Nat) : Option EnrichedTask :=
  (selectTaskById s id).map (enrichTask s)

/-- Possible responses of `GET /api/tasks/:id`. -/
inductive GetResult where
  | notFound
  | ok (task : EnrichedTask)
  deriving Repr, DecidableEq

/-- `GET /api/tasks/:id` handler (lines 114-144): select the task row,
404 when no row matches, otherwise enrich and return it. -/
def getTask (s : Store) (id : Nat) : GetResult :=
  match fetchEnriched s id with
  | none => GetResult.notFound
  | some et => GetResult.ok et

/-- Enrich a task row for the list endpoint (lines 92-104): same queries,
except the subtask query carries `ORDER BY id`. -/
def enrichTaskOrdered (s : Store) (t : TaskRow) : EnrichedTask :=
  { id := t.id, title := t.title, description := t.description,
    priority := t.priority, due_date := t.due_date, completed := t.completed,
    created_at := t.created_at, updated_at := t.updated_at,
    tags := selectTagNames s t.id,
    subtasks := orderById (selectSubtaskViews s t.id) }

/-- `GET /api/tasks` handler (lines 85-111): all tasks
`ORDER BY created_at DESC`, each enriched with tags and id-ordered subtasks. -/
def listTasks (s : Store) : List EnrichedTask :=
  (orderByCreatedDesc s.tasks).map (enrichTaskOrdered s)

/-- Body of `POST /api/tasks` (line 153): optional fields are absent (`none`)
or given; JSON strings are modelled as `String`, the date as a day index. -/
structure CreateReq where
  title : Option String
  description : Option String
  priority : Option String
  due_date : Option Nat
  tags : Option (List String)
  subtasks : Option (List String)
  deriving Repr, DecidableEq

/-- Possible responses of `POST /api/tasks`. -/
inductive CreateResult where
  | badRequest (msg : String)
  | created (task : EnrichedTask)
  | serverError
  deriving Repr, DecidableEq

/-- Rows produced by the bulk
`INSERT INTO tags (task_id, tag_name) VALUES ?`: one row per name, ids
assigned by auto-increment in list order. -/
def mkTagRows (taskId : Nat) : Nat → List String → List TagRow
  | _, [] => []
  | nextId, n :: ns =>
    { id := nextId, task_id := taskId, tag_name := n } :: mkTagRows taskId (nextId + 1) ns

/-- Rows produced by the bulk `INSERT INTO subtasks (task_id, text) VALUES ?`
of the POST handler: `completed` takes its column default `FALSE`, and
`created_at` its default `CURRENT_TIMESTAMP`. -/
def mkSubtaskRowsFromText (taskId now : Nat) : Nat → List String → List SubtaskRow
  | _, [] => []
  | nextId, t :: ts =>
    { id := nextId, task_id := taskId, text := t, completed := false,
      created_at := now } :: mkSubtaskRowsFromText taskId now (nextId + 1) ts

/-- The conditional tag bulk-insert
(`if (tags && Array.isArray(tags) && tags.length > 0)`, lines 168-174 and
237-243): skipped when the list is absent or empty. -/
def insertTagsStep (taskId : Nat) (tags : Option (List String)) (s : Store) : Store :=
  match tags with
  | some ts =>
    if ts.length > 0 then
      { s with tags := s.tags ++ mkTagRows taskId s.nextTagId ts,
               nextTagId := s.nextTagId + ts.length }
    else s
  | none => s

/-- The conditional subtask bulk-insert of the POST handler
(lines 177-183): entries are plain strings. -/
def insertSubtaskTextsStep (taskId now : Nat) (subtasks : Option (List String))
    (s : Store) : Store :=
  match subtasks with
  | some ts =>
    if ts.length > 0 then
      { s with subtasks := s.subtasks ++ mkSubtaskRowsFromText taskId now s.nextSubtaskId ts,
               nextSubtaskId := s.nextSubtaskId + ts.length }
    else s
  | none => s

/-- The task row inserted by
`INSERT INTO tasks (title, description, priority, due_date) VALUES ...`
(lines 160-163): defaults applied in the handler
(`description || null`, `priority || medium`, `due_date || null`) and by the
columns (`completed` defaults to `FALSE`, both timestamps to now). -/
def newTaskRow (s : Store) (now : Nat) (r : CreateReq) (t : String) : TaskRow :=
  { id := s.nextTaskId, title := t, description := jsStrOrNull r.description,
    priority := jsStrOr r.priority "medium", due_date := r.due_date,
    completed := false, created_at := now, updated_at := now }

/-- The store committed by a valid POST: the new task row appended, then the
conditional tag and subtask bulk-inserts. -/
def createCommittedStore (s : Store) (now : Nat) (r : CreateReq) (t : String) : Store :=
  insertSubtaskTextsStep s.nextTaskId now r.subtasks
    (insertTagsStep s.nextTaskId r.tags
      { s with tasks := s.tasks ++ [newTaskRow s now r t],
               nextTaskId := s.nextTaskId + 1 })

/-- `POST /api/tasks` handler (lines 147-211): validate the title (400 when
blank, before any write); insert the task row and conditionally bulk-insert
tags and subtasks; commit; then re-fetch the enriched task by the new id.
The re-fetch failing (`rows[0]` of an empty result) would throw into the
catch branch and answer 500, modelled by `serverError`. -/
def createTask (s : Store) (now : Nat) (r : CreateReq) : Store × CreateResult :=
  match r.title with
  | none => (s, CreateResult.badRequest "Title is required")
  | some t =>
    if jsTrim t == "" then (s, CreateResult.badRequest "Title is required")
    else
      match fetchEnriched (createCommittedStore s now r t) s.nextTaskId with
      | none => (createCommittedStore s now r t, CreateResult.serverError)
      | some et => (createCommittedStore s now r t, CreateResult.created et)

/-- A subtask entry in the PUT body (lines 248-252): either a plain string
or an object carrying `text` and an optional `completed` flag. -/
inductive SubtaskInput where
  | str (text : String)
  | obj (text : String) (completed : Option Bool)
  deriving Repr, DecidableEq

/-- `typeof st === string ? st : st.text` (line 250). -/
def subtaskInputText : SubtaskInput → String
  | SubtaskInput.str t => t
  | SubtaskInput.obj t _ => t

/-- `typeof st === object ? (st.completed || false) : false` (line 251). -/
def subtaskInputCompleted : SubtaskInput → Bool
  | SubtaskInput.str _ => false
  | SubtaskInput.obj _ c => jsBoolOrFalse c

/-- Body of `PUT /api/tasks/:id` (line 220).  The title is the string the
client sent (the handler performs no validation on it). -/
structure UpdateReq where
  title : String
  description : Option String
  priority : Option String
  due_date : Option Nat
  completed : Option Bool
  tags : Option (List String)
  subtasks : Option (List SubtaskInput)
  deriving Repr, DecidableEq

/-- Transaction step 1 (lines 230-233):
`UPDATE tasks SET title, description, priority, due_date, completed WHERE id`
with the JavaScript default fallbacks; `updated_at` refreshes via its
`ON UPDATE CURRENT_TIMESTAMP` column attribute. -/
def applyScalarUpdate (now : Nat) (r : UpdateReq) (t : TaskRow) : TaskRow :=
  { t with
    title := r.title,
    description := jsStrOrNull r.description,
    priority := jsStrOr r.priority "medium",
    due_date := r.due_date,
    completed := jsBoolOrFalse r.completed,
    updated_at := now }

/-- Transaction step 1 as a store transformer: the `UPDATE ... WHERE id = ?`
rewrites every matching row. -/
def updateScalarStep (id now : Nat) (r : UpdateReq) (s : Store) : Store :=
  { s with tasks := s.tasks.map (fun t =>
      if t.id == id then applyScalarUpdate now r t else t) }

/-- Transaction step 2 (line 236): `DELETE FROM tags WHERE task_id = ?`. -/
def deleteTagsStep (id : Nat) (s : Store) : Store :=
  { s with tags := s.tags.filter (fun g => !(g.task_id == id)) }

/-- Transaction step 4 (line 246): `DELETE FROM subtasks WHERE task_id = ?`. -/
def deleteSubtasksStep (id : Nat) (s : Store) : Store :=
  { s with subtasks := s.subtasks.filter (fun st => !(st.task_id == id)) }

/-- Rows produced by the bulk
`INSERT INTO subtasks (task_id, text, completed) VALUES ?` of the PUT
handler (lines 248-256). -/
def mkSubtaskRows (taskId now : Nat) : Nat → List SubtaskInput → List SubtaskRow
  | _, [] => []
  | nextId, st :: sts =>
    { id := nextId, task_id := taskId, text := subtaskInputText st,
      completed := subtaskInputCompleted st,
      created_at := now } :: mkSubtaskRows taskId now (nextId + 1) sts

/-- Transaction step 5 (lines 247-257): conditional subtask bulk-insert of
the PUT handler. -/
def insertSubtasksStep (taskId now : Nat) (subtasks : Option (List SubtaskInput))
    (s : Store) : Store :=
  match subtasks with
  | some sts =>
    if sts.length > 0 then
      { s with subtasks := s.subtasks ++ mkSubtaskRows taskId now s.nextSubtaskId sts,
               nextSubtaskId := s.nextSubtaskId + sts.length }
    else s
  | none => s

/-- The five write statements of the PUT transaction, in program order. -/
def updateSteps (id now : Nat) (r : UpdateReq) : List (Store → Store) :=
  [updateScalarStep id now r, deleteTagsStep id, insertTagsStep id r.tags,
   deleteSubtasksStep id, insertSubtasksStep id now r.subtasks]

/-- Run the statements of a transaction against a pending copy of the store.
`failAt = some k` makes the k-th statement throw: the result is `none`,
meaning the catch branch ran `ROLLBACK` and the store is unchanged;
otherwise the final state is the committed one. -/
def applySteps : Option Nat → List (Store → Store) → Store → Option Store
  | _, [], s => some s
  | some 0, _ :: _, _ => none
  | some (k + 1), f :: fs, s => applySteps (some k) fs (f s)
  | none, f :: fs, s => applySteps none fs (f s)

/-- Possible responses of `PUT /api/tasks/:id`. -/
inductive UpdateResult where
  | notFound
  | ok (task : EnrichedTask)
  | serverError
  deriving Repr, DecidableEq

/-- `PUT /api/tasks/:id` handler (lines 214-285): inside one transaction,
check existence (`SELECT id FROM tasks WHERE id = ?`, 404 when no row and
nothing written); run the five write statements; on any thrown statement the
catch branch rolls the transaction back (store unchanged, 500); on commit,
re-fetch the enriched task (its subtask query has no ORDER BY). -/
def updateTask (s : Store) (id now : Nat) (r : UpdateReq) (failAt : Option Nat) :
    Store × UpdateResult :=
  if (s.tasks.filter (fun t => t.id == id)).length == 0 then
    (s, UpdateResult.notFound)
  else
    match applySteps failAt (updateSteps id now r) s with
    | none => (s, UpdateResult.serverError)
    | some s1 =>
      match fetchEnriched s1 id with
      | none => (s1, UpdateResult.serverError)
      | some et => (s1, UpdateResult.ok et)

/-- Possible responses of the toggle and delete endpoints. -/
inductive ToggleResult where
  | notFound
  | ok (id : Nat) (completed : Bool)
  deriving Repr, DecidableEq

/-- `PATCH /api/tasks/:id/toggle` handler (lines 288-304): read the current
`completed` flag of `rows[0]` (404 when no row), then
`UPDATE tasks SET completed = ? WHERE id = ?` with its negation, and answer
with the new value. -/
def toggleTaskCompletion (s : Store) (id now : Nat) : Store × ToggleResult :=
  match (s.tasks.filter (fun t => t.id == id)).head? with
  | none => (s, ToggleResult.notFound)
  | some row =>
    let newStatus := !row.completed
    ({ s with tasks := s.tasks.map (fun t =>
        if t.id == id then { t with completed := newStatus, updated_at := now } else t) },
     ToggleResult.ok id newStatus)

/-- Possible responses of `DELETE /api/tasks/:id`. -/
inductive DeleteResult where
  | notFound
  | ok (id : Nat)
  deriving Repr, DecidableEq

/-- `DELETE /api/tasks/:id` handler (lines 326-339):
`DELETE FROM tasks WHERE id = ?`; the foreign keys cascade, removing the tag
and subtask rows whose parent row was deleted; 404 when `affectedRows` is 0
(in which case nothing was deleted and no cascade fired). -/
def deleteTask (s : Store) (id : Nat) : Store × DeleteResult :=
  let deleted := s.tasks.filter (fun t => t.id == id)
  let s1 : Store :=
    { s with tasks := s.tasks.filter (fun t => !(t.id == id)),
             tags := s.tags.filter (fun g => !(deleted.any (fun t => t.id == g.task_id))),
             subtasks := s.subtasks.filter (fun st => !(deleted.any (fun t => t.id == st.task_id))) }
  if deleted.length == 0 then (s1, DeleteResult.notFound)
  else (s1, DeleteResult.ok id)

/-- The summary returned by `GET /api/stats`. -/
structure Stats where
  total : Nat
  completed : Nat
  active : Nat
  overdue : Nat
  deriving Repr, DecidableEq

/-- Count of the rows a `WHERE` predicate evaluates to `TRUE` on. -/
def countWhere (p : TaskRow → Option Bool) (l : List TaskRow) : Nat :=
  (l.filter (fun t => sqlIsTrue (p t))).length

/-- `GET /api/stats` handler (lines 342-359): four independent `COUNT(*)`
queries — all rows, `completed = TRUE`, `completed = FALSE`, and
`completed = FALSE AND due_date < CURDATE()` (three-valued on the nullable
date column). -/
def getStats (s : Store) (today : Nat) : Stats :=
  { total := s.tasks.length,
    completed := countWhere (fun t => some (t.completed == true)) s.tasks,
    active := countWhere (fun t => some (t.completed == false)) s.tasks,
    overdue := countWhere
      (fun t => sqlAnd (some (t.completed == false)) (sqlLtDate t.due_date today)) s.tasks }

/-! ### Helper lemmas -/

/-- The row found by `SELECT * FROM tasks WHERE id = ?` carries that id. -/
theorem selectTaskById_id (s : Store) (id : Nat) (t : TaskRow)
    (h : selectTaskById s id = some t) : t.id = id := by
  unfold selectTaskById at h
  cases hl : s.tasks.filter (fun u => u.id == id) with
  | nil => rw [hl] at h; simp at h
  | cons a as =>
    rw [hl] at h
    simp only [List.head?_cons, Option.some.injEq] at h
    have hmem : t ∈ s.tasks.filter (fun u => u.id == id) := by
      rw [hl, ← h]; exact List.mem_cons_self a as
    have hp := List.of_mem_filter hmem
    simpa using hp

/-! ### C10: total = completed + active -/

/-- Evaluating `sqlIsTrue` on a non-null boolean gives that boolean. -/
theorem sqlIsTrue_some (b : Bool) : sqlIsTrue (some b) = b := by
  cases b <;> rfl

/-- Splitting a row list by the boolean `completed` column partitions it. -/
theorem length_filter_completed_partition (l : List TaskRow) :
    l.length
      = (l.filter (fun t => sqlIsTrue (some (t.completed == true)))).length
      + (l.filter (fun t => sqlIsTrue (some (t.completed == false)))).length := by
  induction l with
  | nil => rfl
  | cons x xs ih =>
    have h1 : sqlIsTrue (some (x.completed == true)) = x.completed := by
      cases x.completed <;> rfl
    have h2 : sqlIsTrue (some (x.completed == false)) = !x.completed := by
      cases x.completed <;> rfl
    rw [List.length_cons, List.filter_cons, List.filter_cons, h1, h2]
    cases x.completed <;> simp only [Bool.not_true, Bool.not_false, if_true, if_false,
      Bool.false_eq_true, Bool.true_eq_false, List.length_cons] <;> omega

/-- C10: for every fixed store state, the summary returned by GET /api/stats
satisfies total = completed + active, because the predicates
`completed = TRUE` and `completed = FALSE` partition the rows counted by
total. -/
theorem getStats_total_partition (s : Store) (today : Nat) :
    (getStats s today).total = (getStats s today).completed + (getStats s today).active := by
  simp only [getStats, countWhere]
  exact length_filter_completed_partition s.tasks

/-! ### C4: the overdue count -/

/-- C4: the overdue count of GET /api/stats equals the number of tasks with
completed = false and a present due date strictly earlier than the current
date; completed tasks and tasks with no due date or a due date of today or
later are never counted. -/
theorem getStats_overdue_characterization (s : Store) (today : Nat) :
    (getStats s today).overdue
      = (s.tasks.filter (fun t =>
          !t.completed && (match t.due_date with
            | some d => decide (d < today)
            | none => false))).length := by
  simp only [getStats, countWhere]
  congr 1
  apply List.filter_congr
  intro t _
  cases hc : t.completed <;> cases hd : t.due_date
  · simp [sqlAnd, sqlLtDate, sqlIsTrue]
  · rename_i d
    by_cases hdt : d < today <;> simp [sqlAnd, sqlLtDate, sqlIsTrue, hdt]
  · simp [sqlAnd, sqlLtDate, sqlIsTrue]
  · rename_i d
    by_cases hdt : d < today <;> simp [sqlAnd, sqlLtDate, sqlIsTrue, hdt]

/-! ### C5: blank-title creation is rejected before any write -/

/-- C5: for every creation request whose title is missing, empty, or
whitespace-only, POST /api/tasks answers 400 with no write at all: the
returned store is exactly the prior store (tasks, tags and subtasks rows all
unchanged). -/
theorem createTask_blank_title_rejected (s : Store) (now : Nat) (r : CreateReq)
    (h : titleBlank r.title = true) :
    createTask s now r = (s, CreateResult.badRequest "Title is required") := by
  unfold createTask
  cases ht : r.title with
  | none => rfl
  | some t =>
    rw [ht] at h
    simp only [titleBlank] at h
    simp [h]

/-- Witness for C5 at a concrete whitespace-only title. -/
theorem createTask_blank_title_rejected_witness :
    titleBlank (some "   ") = true ∧
      createTask { tasks := [], tags := [], subtasks := [],
                   nextTaskId := 1, nextTagId := 1, nextSubtaskId := 1 } 7
          { title := some "   ", description := none, priority := none,
            due_date := none, tags := none, subtasks := none }
        = ({ tasks := [], tags := [], subtasks := [],
             nextTaskId := 1, nextTagId := 1, nextSubtaskId := 1 },
           CreateResult.badRequest "Title is required") :=
  ⟨by decide,
   createTask_blank_title_rejected _ 7
     { title := some "   ", description := none, priority := none,
       due_date := none, tags := none, subtasks := none } (by decide)⟩

/-! ### Concrete fixtures used by witnesses and counterexamples -/

/-- A concrete task row used to exercise the handlers. -/
def sampleTask : TaskRow :=
  { id := 1, title := "Buy milk", description := none, priority := "medium",
    due_date := some 10, completed := false, created_at := 3, updated_at := 3 }

/-- A concrete store holding one task with two tags and one subtask. -/
def sampleStore : Store :=
  { tasks := [sampleTask],
    tags := [{ id := 1, task_id := 1, tag_name := "home" },
             { id := 2, task_id := 1, tag_name := "errand" }],
    subtasks := [{ id := 1, task_id := 1, text := "step1", completed := false, created_at := 3 }],
    nextTaskId := 2, nextTagId := 3, nextSubtaskId := 2 }

/-- The store right after schema initialization: all tables empty. -/
def emptyStore : Store :=
  { tasks := [], tags := [], subtasks := [],
    nextTaskId := 1, nextTagId := 1, nextSubtaskId := 1 }

/-- A concrete PUT body. -/
def sampleUpdateReq : UpdateReq :=
  { title := "New title", description := none, priority := none, due_date := none,
    completed := none, tags := some [], subtasks := some [SubtaskInput.str "a"] }

/-! ### C9: missing ids answer 404 and leave the store unchanged -/

/-- C9: when no task row matches the id, GET answers 404, and PUT, PATCH
toggle and DELETE answer 404 returning the store exactly as it was. -/
theorem missing_id_not_found (s : Store) (id now : Nat) (r : UpdateReq) (failAt : Option Nat)
    (h : s.tasks.filter (fun t => t.id == id) = []) :
    getTask s id = GetResult.notFound ∧
    updateTask s id now r failAt = (s, UpdateResult.notFound) ∧
    toggleTaskCompletion s id now = (s, ToggleResult.notFound) ∧
    deleteTask s id = (s, DeleteResult.notFound) := by
  refine ⟨?_, ?_, ?_, ?_⟩
  · unfold getTask fetchEnriched selectTaskById
    rw [h]
    rfl
  · unfold updateTask
    rw [h]
    rfl
  · unfold toggleTaskCompletion
    rw [h]
    rfl
  · have htasks : s.tasks.filter (fun t => !(t.id == id)) = s.tasks := by
      apply List.filter_eq_self.mpr
      intro a ha
      have := List.filter_eq_nil_iff.mp h a ha
      simpa using this
    unfold deleteTask
    rw [h]
    simp only [List.any_nil, Bool.not_false, List.filter_true, htasks, List.length_nil]
    rfl

/-- Witness for C9 on the empty store. -/
theorem missing_id_not_found_witness :
    emptyStore.tasks.filter (fun t => t.id == 1) = [] ∧
      (getTask emptyStore 1 = GetResult.notFound ∧
       updateTask emptyStore 1 9 sampleUpdateReq none = (emptyStore, UpdateResult.notFound) ∧
       toggleTaskCompletion emptyStore 1 9 = (emptyStore, ToggleResult.notFound) ∧
       deleteTask emptyStore 1 = (emptyStore, DeleteResult.notFound)) :=
  ⟨by decide, missing_id_not_found emptyStore 1 9 sampleUpdateReq none (by decide)⟩

/-! ### C3: the PUT transaction rolls back fully on any failing statement -/

/-- A statement failure inside the transaction makes the whole run fail. -/
theorem applySteps_fail (steps : List (Store → Store)) (k : Nat) (s : Store)
    (h : k < steps.length) : applySteps (some k) steps s = none := by
  induction steps generalizing k s with
  | nil => simp at h
  | cons f fs ih =>
    cases k with
    | zero => rfl
    | succ k =>
      have hk : k < fs.length := by simpa using h
      show applySteps (some k) fs (f s) = none
      exact ih k (f s) hk

/-- C3: if any of the five write statements of the PUT transaction fails,
the handler rolls the transaction back: the store is exactly as before the
request, and the response is 404 or 500, never a success. -/
theorem updateTask_rollback_on_failure (s : Store) (id now : Nat) (r : UpdateReq) (k : Nat)
    (h : k < 5) :
    (updateTask s id now r (some k)).1 = s ∧
    ((updateTask s id now r (some k)).2 = UpdateResult.notFound ∨
     (updateTask s id now r (some k)).2 = UpdateResult.serverError) := by
  unfold updateTask
  by_cases hex : ((s.tasks.filter (fun t => t.id == id)).length == 0) = true
  · simp [hex]
  · have hfail : applySteps (some k) (updateSteps id now r) s = none := by
      apply applySteps_fail
      simpa [updateSteps] using h
    simp [hex, hfail]

/-- Witness for C3: a failure injected into the tag insert statement leaves
the sample store untouched. -/
theorem updateTask_rollback_on_failure_witness :
    (2 : Nat) < 5 ∧
      ((updateTask sampleStore 1 9 sampleUpdateReq (some 2)).1 = sampleStore ∧
       ((updateTask sampleStore 1 9 sampleUpdateReq (some 2)).2 = UpdateResult.notFound ∨
        (updateTask sampleStore 1 9 sampleUpdateReq (some 2)).2 = UpdateResult.serverError)) :=
  ⟨by decide, updateTask_rollback_on_failure sampleStore 1 9 sampleUpdateReq 2 (by decide)⟩

/-! ### C8: toggle is an involution and the response matches the store -/

/-- The `completed` flag the toggle handler reads: the first row matching
the id (`rows[0].completed`). -/
def storedCompleted (s : Store) (id : Nat) : Option Bool :=
  (selectTaskById s id).map (fun t => t.completed)

/-- An `UPDATE ... WHERE id = ?` does not disturb which row
`SELECT ... WHERE id = ?` finds: the found row is the updated image of the
row found before, for any per-row update preserving the id. -/
theorem head_filter_map_update (l : List TaskRow) (id : Nat) (f : TaskRow → TaskRow)
    (hf : ∀ t, (f t).id = t.id) :
    ((l.map (fun t => if t.id == id then f t else t)).filter (fun t => t.id == id)).head?
      = ((l.filter (fun t => t.id == id)).head?).map f := by
  induction l with
  | nil => rfl
  | cons x xs ih =>
    by_cases hx : x.id = id
    · have hfx : (f x).id = id := by rw [hf]; exact hx
      simp [hx, hfx]
    · simpa [hx] using ih

/-- When a row matches, the toggle handler writes the negated flag to every
matching row and answers with it. -/
theorem toggleTaskCompletion_found (s : Store) (id now : Nat) (row : TaskRow)
    (hsel : (s.tasks.filter (fun t => t.id == id)).head? = some row) :
    toggleTaskCompletion s id now
      = ({ s with tasks := s.tasks.map (fun t =>
            if t.id == id then { t with completed := !row.completed, updated_at := now }
            else t) },
         ToggleResult.ok id (!row.completed)) := by
  unfold toggleTaskCompletion
  rw [hsel]

/-- C8: toggling a task twice restores the originally stored completed
flag, and after each toggle the response's completed field equals the value
then stored for that task. -/
theorem toggleTask_involution (s : Store) (id now1 now2 : Nat) (c : Bool)
    (h : storedCompleted s id = some c) :
    (toggleTaskCompletion s id now1).2 = ToggleResult.ok id (!c) ∧
    storedCompleted (toggleTaskCompletion s id now1).1 id = some (!c) ∧
    (toggleTaskCompletion (toggleTaskCompletion s id now1).1 id now2).2
      = ToggleResult.ok id c ∧
    storedCompleted (toggleTaskCompletion (toggleTaskCompletion s id now1).1 id now2).1 id
      = some c := by
  unfold storedCompleted selectTaskById at h
  cases hsel : (s.tasks.filter (fun t => t.id == id)).head? with
  | none => rw [hsel] at h; simp at h
  | some row =>
    rw [hsel] at h
    have h : row.completed = c := by simpa using h
    have hstep1 := toggleTaskCompletion_found s id now1 row hsel
    have hhead1 :
        ((toggleTaskCompletion s id now1).1.tasks.filter (fun t => t.id == id)).head?
          = some { row with completed := !row.completed, updated_at := now1 } := by
      rw [hstep1]
      rw [head_filter_map_update s.tasks id
        (fun t => { t with completed := !row.completed, updated_at := now1 }) (fun t => rfl)]
      rw [hsel]
      rfl
    have hstep2 := toggleTaskCompletion_found (toggleTaskCompletion s id now1).1 id now2
      { row with completed := !row.completed, updated_at := now1 } hhead1
    have hhead2 :
        ((toggleTaskCompletion (toggleTaskCompletion s id now1).1 id now2).1.tasks.filter
            (fun t => t.id == id)).head?
          = some { row with completed := !(!row.completed), updated_at := now2 } := by
      rw [hstep2]
      rw [head_filter_map_update (toggleTaskCompletion s id now1).1.tasks id
        (fun t => { t with completed := !(!row.completed), updated_at := now2 }) (fun t => rfl)]
      rw [hhead1]
      rfl
    refine ⟨?_, ?_, ?_, ?_⟩
    · rw [hstep1, h]
    · unfold storedCompleted selectTaskById
      rw [hhead1, h]
      rfl
    · rw [hstep2, h]
      simp
    · unfold storedCompleted selectTaskById
      rw [hhead2, h]
      simp

/-- Witness for C8 on the sample store. -/
theorem toggleTask_involution_witness :
    storedCompleted sampleStore 1 = some false ∧
      ((toggleTaskCompletion sampleStore 1 5).2 = ToggleResult.ok 1 (!false) ∧
       storedCompleted (toggleTaskCompletion sampleStore 1 5).1 1 = some (!false) ∧
       (toggleTaskCompletion (toggleTaskCompletion sampleStore 1 5).1 1 6).2
         = ToggleResult.ok 1 false ∧
       storedCompleted
           (toggleTaskCompletion (toggleTaskCompletion sampleStore 1 5).1 1 6).1 1
         = some false) :=
  ⟨by decide, toggleTask_involution sampleStore 1 5 6 false (by decide)⟩

/-! ### C2: update replaces tags and subtasks wholesale -/

/-- The tag list an update request supplies (empty when absent). -/
def requestTagList : Option (List String) → List String
  | none => []
  | some ts => ts

/-- The (text, completed) pairs an update request supplies for subtasks
(empty when absent; strings default completed to false). -/
def requestSubtaskPairs : Option (List SubtaskInput) → List (String × Bool)
  | none => []
  | some sts => sts.map (fun st => (subtaskInputText st, subtaskInputCompleted st))

/-- Running a transaction with no failing statement applies the statements
in order and commits. -/
theorem applySteps_none (fs : List (Store → Store)) (s : Store) :
    applySteps none fs s = some (fs.foldl (fun st f => f st) s) := by
  induction fs generalizing s with
  | nil => rfl
  | cons f fs ih => simpa [applySteps] using ih (f s)

/-- Rows deleted by predicate never reappear under the same predicate. -/
theorem filter_not_filter_nil {α : Type} (l : List α) (p : α → Bool) :
    (l.filter (fun a => !(p a))).filter p = [] := by
  rw [List.filter_filter]
  simp

/-- Every bulk-inserted tag row carries the given task id. -/
theorem mkTagRows_filter (taskId : Nat) (nid : Nat) (ts : List String) :
    (mkTagRows taskId nid ts).filter (fun g => g.task_id == taskId)
      = mkTagRows taskId nid ts := by
  induction ts generalizing nid with
  | nil => rfl
  | cons t ts ih => simp [mkTagRows, List.filter_cons, ih]

/-- The bulk-inserted tag rows carry exactly the given names, in order. -/
theorem mkTagRows_names (taskId : Nat) (nid : Nat) (ts : List String) :
    (mkTagRows taskId nid ts).map (fun g => g.tag_name) = ts := by
  induction ts generalizing nid with
  | nil => rfl
  | cons t ts ih => simp [mkTagRows, ih]

/-- Every bulk-inserted subtask row of the PUT handler carries the task id. -/
theorem mkSubtaskRows_filter (taskId now : Nat) (nid : Nat) (sts : List SubtaskInput) :
    (mkSubtaskRows taskId now nid sts).filter (fun st => st.task_id == taskId)
      = mkSubtaskRows taskId now nid sts := by
  induction sts generalizing nid with
  | nil => rfl
  | cons st sts ih => simp [mkSubtaskRows, List.filter_cons, ih]

/-- The bulk-inserted subtask rows of the PUT handler carry exactly the
requested texts and completion flags, in order. -/
theorem mkSubtaskRows_pairs (taskId now : Nat) (nid : Nat) (sts : List SubtaskInput) :
    (mkSubtaskRows taskId now nid sts).map (fun st => (st.text, st.completed))
      = sts.map (fun st => (subtaskInputText st, subtaskInputCompleted st)) := by
  induction sts generalizing nid with
  | nil => rfl
  | cons st sts ih => simp [mkSubtaskRows, ih]

/-- The subtask insert leaves the tags table alone. -/
theorem insertSubtasksStep_tags (id now : Nat) (o : Option (List SubtaskInput)) (s : Store) :
    (insertSubtasksStep id now o s).tags = s.tags := by
  unfold insertSubtasksStep
  cases o with
  | none => rfl
  | some ts => by_cases h : ts.length > 0 <;> simp [h]

/-- The tag insert leaves the subtasks table alone. -/
theorem insertTagsStep_subtasks (id : Nat) (o : Option (List String)) (s : Store) :
    (insertTagsStep id o s).subtasks = s.subtasks := by
  unfold insertTagsStep
  cases o with
  | none => rfl
  | some ts => by_cases h : ts.length > 0 <;> simp [h]

/-- The tag insert leaves the subtask counter alone. -/
theorem insertTagsStep_nextSubtaskId (id : Nat) (o : Option (List String)) (s : Store) :
    (insertTagsStep id o s).nextSubtaskId = s.nextSubtaskId := by
  unfold insertTagsStep
  cases o with
  | none => rfl
  | some ts => by_cases h : ts.length > 0 <;> simp [h]

/-- The committed store of a successful PUT is the five statements applied
in program order. -/
theorem updateTask_committed_store (s : Store) (id now : Nat) (r : UpdateReq)
    (h : ((s.tasks.filter (fun t => t.id == id)).length == 0) = false) :
    (updateTask s id now r none).1
      = insertSubtasksStep id now r.subtasks (deleteSubtasksStep id
          (insertTagsStep id r.tags (deleteTagsStep id (updateScalarStep id now r s)))) := by
  unfold updateTask
  rw [h]
  rw [applySteps_none]
  simp only [updateSteps, List.foldl]
  cases fetchEnriched (insertSubtasksStep id now r.subtasks (deleteSubtasksStep id
      (insertTagsStep id r.tags (deleteTagsStep id (updateScalarStep id now r s))))) id <;>
    rfl

/-- C2: after a PUT of an existing task, the stored tag rows for that task
are exactly the requested tag names (empty when absent or empty), and the
stored subtask rows are exactly the requested (text, completed) entries. -/
theorem updateTask_replaces_children (s : Store) (id now : Nat) (r : UpdateReq)
    (h : (s.tasks.filter (fun t => t.id == id)).length ≠ 0) :
    selectTagNames (updateTask s id now r none).1 id = requestTagList r.tags ∧
    (selectSubtaskViews (updateTask s id now r none).1 id).map (fun v => (v.text, v.completed))
      = requestSubtaskPairs r.subtasks := by
  have hb : ((s.tasks.filter (fun t => t.id == id)).length == 0) = false := by
    simpa using h
  rw [updateTask_committed_store s id now r hb]
  constructor
  · unfold selectTagNames
    rw [insertSubtasksStep_tags]
    show ((insertTagsStep id r.tags (deleteTagsStep id (updateScalarStep id now r s))).tags.filter
        (fun g => g.task_id == id)).map (fun g => g.tag_name) = requestTagList r.tags
    cases ho : r.tags with
    | none =>
      simp only [insertTagsStep, deleteTagsStep, updateScalarStep]
      rw [filter_not_filter_nil]
      rfl
    | some ts =>
      by_cases hlen : ts.length > 0
      · simp only [insertTagsStep, hlen, if_true, deleteTagsStep, updateScalarStep]
        rw [List.filter_append, filter_not_filter_nil, List.nil_append,
          mkTagRows_filter, mkTagRows_names]
        rfl
      · have hts : ts = [] := by
          cases ts with
          | nil => rfl
          | cons a as => simp at hlen
        subst hts
        simp only [insertTagsStep, deleteTagsStep, updateScalarStep]
        rw [if_neg hlen, filter_not_filter_nil]
        rfl
  · unfold selectSubtaskViews
    have hsub : (deleteSubtasksStep id (insertTagsStep id r.tags
          (deleteTagsStep id (updateScalarStep id now r s)))).subtasks
        = s.subtasks.filter (fun st => !(st.task_id == id)) := by
      unfold deleteSubtasksStep
      rw [insertTagsStep_subtasks]
      rfl
    cases ho : r.subtasks with
    | none =>
      simp only [insertSubtasksStep]
      rw [hsub, filter_not_filter_nil]
      rfl
    | some sts =>
      by_cases hlen : sts.length > 0
      · simp only [insertSubtasksStep, hlen, if_true]
        rw [hsub, List.filter_append, filter_not_filter_nil, List.nil_append,
          mkSubtaskRows_filter]
        rw [List.map_map]
        have : ((fun v : SubtaskView => (v.text, v.completed)) ∘ toSubtaskView)
            = fun st : SubtaskRow => (st.text, st.completed) := rfl
        rw [this, mkSubtaskRows_pairs]
        rfl
      · have hts : sts = [] := by
          cases sts with
          | nil => rfl
          | cons a as => simp at hlen
        subst hts
        simp only [insertSubtasksStep]
        rw [if_neg hlen, hsub, filter_not_filter_nil]
        rfl

/-- Witness for C2: updating the sample task (which has two tags) with an
empty tag list and one subtask leaves exactly no tags and that subtask. -/
theorem updateTask_replaces_children_witness :
    (sampleStore.tasks.filter (fun t => t.id == 1)).length ≠ 0 ∧
      (selectTagNames (updateTask sampleStore 1 9 sampleUpdateReq none).1 1
          = requestTagList sampleUpdateReq.tags ∧
       (selectSubtaskViews (updateTask sampleStore 1 9 sampleUpdateReq none).1 1).map
            (fun v => (v.text, v.completed))
          = requestSubtaskPairs sampleUpdateReq.subtasks) :=
  ⟨by decide, updateTask_replaces_children sampleStore 1 9 sampleUpdateReq (by decide)⟩

/-! ### C1: create-then-get round trip -/

/-- The tag insert leaves the tasks table alone. -/
theorem insertTagsStep_tasks (id : Nat) (o : Option (List String)) (s : Store) :
    (insertTagsStep id o s).tasks = s.tasks := by
  unfold insertTagsStep
  cases o with
  | none => rfl
  | some ts => by_cases h : ts.length > 0 <;> simp [h]

/-- The subtask insert of the POST handler leaves the tasks table alone. -/
theorem insertSubtaskTextsStep_tasks (id now : Nat) (o : Option (List String)) (s : Store) :
    (insertSubtaskTextsStep id now o s).tasks = s.tasks := by
  unfold insertSubtaskTextsStep
  cases o with
  | none => rfl
  | some ts => by_cases h : ts.length > 0 <;> simp [h]

/-- The tasks table of the committed POST store is the old table with the
new row appended. -/
theorem createCommittedStore_tasks (s : Store) (now : Nat) (r : CreateReq) (t : String) :
    (createCommittedStore s now r t).tasks = s.tasks ++ [newTaskRow s now r t] := by
  unfold createCommittedStore
  rw [insertSubtaskTextsStep_tasks, insertTagsStep_tasks]

/-- The POST response and a subsequent GET by the returned id agree on every
field. -/
def createThenGetAgrees : Store × CreateResult → Prop
  | (s1, CreateResult.created et) => getTask s1 et.id = GetResult.ok et
  | _ => False

/-- C1: for every valid creation input (non-blank title), POST /api/tasks
answers 201 with a created task, and GET /api/tasks/:id on the returned id
against the resulting store yields exactly the same representation: same
scalar columns, same tags, same subtasks. -/
theorem createTask_getTask_roundtrip (s : Store) (now : Nat) (r : CreateReq)
    (h : titleBlank r.title = false) :
    createThenGetAgrees (createTask s now r) := by
  cases ht : r.title with
  | none => rw [ht] at h; simp [titleBlank] at h
  | some t =>
    rw [ht] at h
    have htr : (jsTrim t == "") = false := by simpa [titleBlank] using h
    simp only [createTask, ht, htr, Bool.false_eq_true, if_false]
    cases hfe : fetchEnriched (createCommittedStore s now r t) s.nextTaskId with
    | none =>
      exfalso
      have hsel : selectTaskById (createCommittedStore s now r t) s.nextTaskId = none := by
        unfold fetchEnriched at hfe
        cases hx : selectTaskById (createCommittedStore s now r t) s.nextTaskId with
        | none => rfl
        | some u => rw [hx] at hfe; simp at hfe
      unfold selectTaskById at hsel
      rw [createCommittedStore_tasks, List.head?_eq_none_iff, List.filter_append] at hsel
      have : (([newTaskRow s now r t]).filter (fun u => u.id == s.nextTaskId)) = [] :=
        (List.append_eq_nil.mp hsel).2
      simp [newTaskRow, List.filter_cons] at this
    | some et =>
      show getTask (createCommittedStore s now r t) et.id = GetResult.ok et
      unfold fetchEnriched at hfe
      cases hx : selectTaskById (createCommittedStore s now r t) s.nextTaskId with
      | none => rw [hx] at hfe; simp at hfe
      | some u =>
        rw [hx] at hfe
        have hetu : et = enrichTask (createCommittedStore s now r t) u := by
          simpa using hfe.symm
        have hid : et.id = s.nextTaskId := by
          rw [hetu]
          show u.id = s.nextTaskId
          exact selectTaskById_id _ _ _ hx
        rw [hid]
        unfold getTask fetchEnriched
        rw [hx]
        rw [hetu]
        rfl

/-- Witness for C1 at a concrete creation request. -/
theorem createTask_getTask_roundtrip_witness :
    titleBlank (some "Write report") = false ∧
      createThenGetAgrees (createTask emptyStore 4
        { title := some "Write report", description := some "draft", priority := some "high",
          due_date := some 12, tags := some ["work"], subtasks := some ["outline", "body"] }) :=
  ⟨by decide,
   createTask_getTask_roundtrip emptyStore 4
     { title := some "Write report", description := some "draft", priority := some "high",
       due_date := some 12, tags := some ["work"], subtasks := some ["outline", "body"] }
     (by decide)⟩

/-! ### C6: subtask ordering of the enriched responses -/

/-- Decidable check that a subtask view list is ordered by id ascending. -/
def sortedByIdB : List SubtaskView → Bool
  | [] => true
  | [_] => true
  | x :: y :: rest => decide (x.id ≤ y.id) && sortedByIdB (y :: rest)

/-- Unfolding equation for the sortedness check on two or more elements. -/
theorem sortedByIdB_cons_cons (x y : SubtaskView) (l : List SubtaskView) :
    sortedByIdB (x :: y :: l) = (decide (x.id ≤ y.id) && sortedByIdB (y :: l)) := rfl

/-- Inserting into an id-sorted list keeps it id-sorted. -/
theorem sortedByIdB_insert (x : SubtaskView) (l : List SubtaskView)
    (h : sortedByIdB l = true) : sortedByIdB (insertByIdLe x l) = true := by
  induction l with
  | nil => rfl
  | cons y ys ih =>
    by_cases hxy : x.id ≤ y.id
    · have hstep : insertByIdLe x (y :: ys) = x :: y :: ys := by
        simp [insertByIdLe, hxy]
      rw [hstep, sortedByIdB_cons_cons, Bool.and_eq_true]
      exact ⟨by simpa using hxy, h⟩
    · have hstep : insertByIdLe x (y :: ys) = y :: insertByIdLe x ys := by
        simp [insertByIdLe, hxy]
      rw [hstep]
      cases ys with
      | nil =>
        show sortedByIdB (y :: [x]) = true
        rw [sortedByIdB_cons_cons, Bool.and_eq_true]
        refine ⟨by simp only [decide_eq_true_eq]; omega, rfl⟩
      | cons z zs =>
        have hh := h
        rw [sortedByIdB_cons_cons, Bool.and_eq_true] at hh
        obtain ⟨hyz, hs⟩ := hh
        have hins := ih hs
        by_cases hxz : x.id ≤ z.id
        · have hstep2 : insertByIdLe x (z :: zs) = x :: z :: zs := by
            simp [insertByIdLe, hxz]
          rw [hstep2, sortedByIdB_cons_cons, sortedByIdB_cons_cons,
            Bool.and_eq_true, Bool.and_eq_true]
          refine ⟨by simp only [decide_eq_true_eq]; omega, by simpa using hxz, hs⟩
        · have hstep2 : insertByIdLe x (z :: zs) = z :: insertByIdLe x zs := by
            simp [insertByIdLe, hxz]
          rw [hstep2] at hins ⊢
          rw [sortedByIdB_cons_cons, Bool.and_eq_true]
          exact ⟨hyz, hins⟩

/-- The `ORDER BY id` sort indeed sorts by id ascending. -/
theorem sortedByIdB_orderById (l : List SubtaskView) : sortedByIdB (orderById l) = true := by
  induction l with
  | nil => rfl
  | cons x xs ih =>
    show sortedByIdB (insertByIdLe x (orderById xs)) = true
    exact sortedByIdB_insert x _ ih

/-- C6 (amended part): every enriched task returned by the list endpoint has
its subtasks ordered by id ascending, for every store state. -/
theorem listTasks_subtasks_sorted (s : Store) :
    ((listTasks s).all (fun et => sortedByIdB et.subtasks)) = true := by
  unfold listTasks
  rw [List.all_eq_true]
  intro et hmem
  rw [List.mem_map] at hmem
  obtain ⟨t, ht, rfl⟩ := hmem
  show sortedByIdB (enrichTaskOrdered s t).subtasks = true
  unfold enrichTaskOrdered
  exact sortedByIdB_orderById _

/-- A store in which the engine's row order for task 1's subtasks is not
id-ascending (nothing in the schema or the queries without ORDER BY
prevents this). -/
def unsortedSubtasksStore : Store :=
  { tasks := [{ id := 1, title := "t", description := none, priority := "medium",
                due_date := none, completed := false, created_at := 0, updated_at := 0 }],
    tags := [],
    subtasks := [{ id := 2, task_id := 1, text := "b", completed := false, created_at := 0 },
                 { id := 1, task_id := 1, text := "a", completed := false, created_at := 0 }],
    nextTaskId := 2, nextTagId := 1, nextSubtaskId := 3 }

/-- Whether the subtasks of a GET-by-id response are ordered by id. -/
def getTaskSubtasksSorted (s : Store) (id : Nat) : Bool :=
  match getTask s id with
  | GetResult.ok et => sortedByIdB et.subtasks
  | GetResult.notFound => true

/-- C6 (counterexample): the GET-by-id handler issues its subtask query with
no ORDER BY, so the response's subtasks are not ordered by id ascending on a
store whose physical row order differs from id order. -/
theorem getTask_subtasks_unsorted_cex :
    getTaskSubtasksSorted unsortedSubtasksStore 1 = false := by
  rfl

/-! ### C7: the non-blank-title invariant -/

/-- A PUT body carrying an empty title. -/
def blankTitleUpdateReq : UpdateReq :=
  { title := "", description := none, priority := none, due_date := none,
    completed := none, tags := none, subtasks := none }

/-- C7 (counterexample): updating the sample task with an empty title
succeeds and stores the empty (blank) title — the PUT handler performs no
title validation. -/
theorem updateTask_stores_blank_title_cex :
    ((updateTask sampleStore 1 9 blankTitleUpdateReq none).1.tasks.map (fun t => t.title))
        = [""]
      ∧ titleBlank (some "") = true := by
  refine ⟨by rfl, by rfl⟩

/-- Every stored task title is non-blank. -/
def titlesNonBlank (s : Store) : Prop :=
  ∀ t ∈ s.tasks, (jsTrim t.title == "") = false

/-- A valid POST returns the committed store whatever the re-fetch yields. -/
theorem createTask_committed (s : Store) (now : Nat) (r : CreateReq) (t : String)
    (ht : r.title = some t) (htr : (jsTrim t == "") = false) :
    (createTask s now r).1 = createCommittedStore s now r t := by
  simp only [createTask, ht, htr, Bool.false_eq_true, if_false]
  cases fetchEnriched (createCommittedStore s now r t) s.nextTaskId <;> rfl

/-- The tasks left by DELETE are the rows whose id differs. -/
theorem deleteTask_tasks (s : Store) (id : Nat) :
    (deleteTask s id).1.tasks = s.tasks.filter (fun t => !(t.id == id)) := by
  unfold deleteTask
  cases hb : ((s.tasks.filter (fun t => t.id == id)).length == 0) <;> simp [hb]

/-- C7 (amended): create, toggle and delete preserve the non-blank-title
invariant (create validates the title before inserting); the PUT handler,
however, stores the request title verbatim with no validation, so the
invariant does not extend to updates. -/
theorem title_invariant_create_toggle_delete (s : Store) (now id : Nat) (r : CreateReq)
    (h : titlesNonBlank s) :
    titlesNonBlank (createTask s now r).1 ∧
    titlesNonBlank (toggleTaskCompletion s id now).1 ∧
    titlesNonBlank (deleteTask s id).1 := by
  refine ⟨?_, ?_, ?_⟩
  · cases ht : r.title with
    | none =>
      have : (createTask s now r).1 = s := by simp [createTask, ht]
      rw [this]; exact h
    | some t =>
      by_cases htr : (jsTrim t == "") = true
      · have : (createTask s now r).1 = s := by simp [createTask, ht, htr]
        rw [this]; exact h
      · have htr' : (jsTrim t == "") = false := by simpa using htr
        rw [createTask_committed s now r t ht htr']
        intro u hu
        rw [createCommittedStore_tasks] at hu
        rcases List.mem_append.mp hu with hold | hnew
        · exact h u hold
        · have : u = newTaskRow s now r t := by simpa using hnew
          rw [this]
          exact htr'
  · cases hsel : (s.tasks.filter (fun t => t.id == id)).head? with
    | none =>
      have hne : toggleTaskCompletion s id now = (s, ToggleResult.notFound) := by
        unfold toggleTaskCompletion; rw [hsel]
      rw [hne]; exact h
    | some row =>
      rw [toggleTaskCompletion_found s id now row hsel]
      intro u hu
      have hu : u ∈ s.tasks.map (fun t =>
          if t.id == id then { t with completed := !row.completed, updated_at := now }
          else t) := hu
      rw [List.mem_map] at hu
      obtain ⟨v, hv, rfl⟩ := hu
      by_cases hvid : (v.id == id) = true
      · simp only [hvid, if_true]
        exact h v hv
      · have hvid' : (v.id == id) = false := by simpa using hvid
        simp only [hvid', Bool.false_eq_true, if_false]
        exact h v hv
  · intro u hu
    rw [deleteTask_tasks] at hu
    exact h u (List.mem_of_mem_filter hu)

/-- Witness for the amended C7 on the sample store. -/
theorem title_invariant_witness :
    titlesNonBlank sampleStore ∧
      (titlesNonBlank (createTask sampleStore 4
          { title := some "Plan trip", description := none, priority := none,
            due_date := none, tags := none, subtasks := none }).1 ∧
       titlesNonBlank (toggleTaskCompletion sampleStore 1 4).1 ∧
       titlesNonBlank (deleteTask sampleStore 1).1) :=
  ⟨by
     intro t ht
     have heq : t = sampleTask := by simpa [sampleStore] using ht
     rw [heq]
     rfl,
   title_invariant_create_toggle_delete sampleStore 4 1
     { title := some "Plan trip", description := none, priority := none,
       due_date := none, tags := none, subtasks := none }
     (by
       intro t ht
       have heq : t = sampleTask := by simpa [sampleStore] using ht
       rw [heq]
       rfl)⟩

end TodoServer
